import Mathlib

/-!
Shallow embedding of the VueStream canvas core
(`src/packages/core/canvas/CanvasManager.ts`,
`src/packages/core/canvas/layouts.ts`, and the `OverlayManager` in
`overlays.ts`).

JavaScript `Map`s are modelled as association lists with the `Map`
semantics: `set` updates an existing key in place (keeping insertion
order) or appends a new one; `get` returns the value at the key;
`delete` removes the single entry at the key.  Numeric values are
modelled with `ℚ` (the geometry arithmetic of the claims is exact).
-/

namespace VueStream

/-- `Map.get(k)` on an association list. -/
def lookupA {α : Type} : List (String × α) → String → Option α
  | [], _ => none
  | (k2, v) :: rest, k => if k2 == k then some v else lookupA rest k

/-- `Map.set(k, v)`: update in place when the key exists, else append. -/
def setA {α : Type} : List (String × α) → String → α → List (String × α)
  | [], k, v => [(k, v)]
  | (k2, v2) :: rest, k, v =>
    if k2 == k then (k, v) :: rest else (k2, v2) :: setA rest k v

/-- `Map.delete(k)`: remove the entry at the key (keys are unique). -/
def eraseA {α : Type} : List (String × α) → String → List (String × α)
  | [], _ => []
  | (k2, v2) :: rest, k => if k2 == k then rest else (k2, v2) :: eraseA rest k

/-! ## Layout presets (`layouts.ts`) -/

/-- `LayoutZoneDefinition` from `layouts.ts`. -/
structure LayoutZoneDefinition where
  id : String
  x : ℚ
  y : ℚ
  width : ℚ
  height : ℚ
  label : Option String := none
deriving Repr, DecidableEq

/-- `LayoutPreset` from `layouts.ts`. -/
structure LayoutPreset where
  id : String
  name : String
  description : String
  zones : List LayoutZoneDefinition
  aspectRatio : ℚ
  maxParticipants : ℕ
deriving Repr, DecidableEq

/-- `calculateZonePositions` from `layouts.ts`: scale fractional zone
rectangles by the canvas size. -/
def calculateZonePositions (zones : List LayoutZoneDefinition)
    (canvasWidth canvasHeight : ℚ) : List LayoutZoneDefinition :=
  zones.map fun zone =>
    { zone with
      x := zone.x * canvasWidth
      y := zone.y * canvasHeight
      width := zone.width * canvasWidth
      height := zone.height * canvasHeight }

/-- `SINGLE_SPEAKER_LAYOUT` from `layouts.ts`. -/
def SINGLE_SPEAKER_LAYOUT : LayoutPreset :=
  { id := "single-speaker"
    name := "Single Speaker"
    description := "One participant takes the full screen"
    aspectRatio := 16 / 9
    maxParticipants := 1
    zones := [
      { id := "main", x := 0.05, y := 0.05, width := 0.9, height := 0.9,
        label := some "Main Speaker" }] }

/-- `PICTURE_IN_PICTURE_LAYOUT` from `layouts.ts`. -/
def PICTURE_IN_PICTURE_LAYOUT : LayoutPreset :=
  { id := "picture-in-picture"
    name := "Picture in Picture"
    description := "Main speaker with small secondary video"
    aspectRatio := 16 / 9
    maxParticipants := 2
    zones := [
      { id := "main", x := 0.025, y := 0.025, width := 0.95, height := 0.95,
        label := some "Main Speaker" },
      { id := "pip", x := 0.7, y := 0.05, width := 0.25, height := 0.25,
        label := some "Secondary" }] }

/-- `SIDE_BY_SIDE_LAYOUT` from `layouts.ts`. -/
def SIDE_BY_SIDE_LAYOUT : LayoutPreset :=
  { id := "side-by-side"
    name := "Side by Side"
    description := "Two participants sharing the screen equally"
    aspectRatio := 16 / 9
    maxParticipants := 2
    zones := [
      { id := "left", x := 0.025, y := 0.05, width := 0.475, height := 0.9,
        label := some "Left Speaker" },
      { id := "right", x := 0.5, y := 0.05, width := 0.475, height := 0.9,
        label := some "Right Speaker" }] }

/-- `FOUR_GRID_LAYOUT` from `layouts.ts`. -/
def FOUR_GRID_LAYOUT : LayoutPreset :=
  { id := "four-grid"
    name := "Four Grid"
    description := "Four participants in a 2x2 grid"
    aspectRatio := 16 / 9
    maxParticipants := 4
    zones := [
      { id := "top-left", x := 0.025, y := 0.025, width := 0.475,
        height := 0.475, label := some "Top Left" },
      { id := "top-right", x := 0.5, y := 0.025, width := 0.475,
        height := 0.475, label := some "Top Right" },
      { id := "bottom-left", x := 0.025, y := 0.5, width := 0.475,
        height := 0.475, label := some "Bottom Left" },
      { id := "bottom-right", x := 0.5, y := 0.5, width := 0.475,
        height := 0.475, label := some "Bottom Right" }] }

/-- `SPOTLIGHT_GALLERY_LAYOUT` from `layouts.ts`. -/
def SPOTLIGHT_GALLERY_LAYOUT : LayoutPreset :=
  { id := "spotlight-gallery"
    name := "Spotlight with Gallery"
    description := "Main speaker with gallery of other participants"
    aspectRatio := 16 / 9
    maxParticipants := 7
    zones := [
      { id := "spotlight", x := 0.025, y := 0.025, width := 0.7,
        height := 0.95, label := some "Spotlight Speaker" },
      { id := "gallery-1", x := 0.75, y := 0.025, width := 0.225,
        height := 0.15, label := some "Gallery 1" },
      { id := "gallery-2", x := 0.75, y := 0.19, width := 0.225,
        height := 0.15, label := some "Gallery 2" },
      { id := "gallery-3", x := 0.75, y := 0.355, width := 0.225,
        height := 0.15, label := some "Gallery 3" },
      { id := "gallery-4", x := 0.75, y := 0.52, width := 0.225,
        height := 0.15, label := some "Gallery 4" },
      { id := "gallery-5", x := 0.75, y := 0.685, width := 0.225,
        height := 0.15, label := some "Gallery 5" },
      { id := "gallery-6", x := 0.75, y := 0.85, width := 0.225,
        height := 0.125, label := some "Gallery 6" }] }

/-- `LAYOUT_PRESETS` from `layouts.ts`. -/
def LAYOUT_PRESETS : List LayoutPreset :=
  [SINGLE_SPEAKER_LAYOUT, PICTURE_IN_PICTURE_LAYOUT, SIDE_BY_SIDE_LAYOUT,
   FOUR_GRID_LAYOUT, SPOTLIGHT_GALLERY_LAYOUT]

/-! ## CanvasManager state (`CanvasManager.ts` + `types.ts`) -/

/-- An event delivered on the `CanvasManager` event bus (`emit`).  Only the
fields the claims observe are modelled: the event type string and, for
`error` events, the structured `code`. -/
structure CanvasEvent where
  type : String
  errorCode : Option String := none
deriving Repr, DecidableEq

/-- A `Layer` entry of `state.layers` (`createDefaultLayers`).  `children`
models the child list of the layer's Pixi container: the ids of the zone
containers attached under it, in `addChild` order. -/
structure Layer where
  name : String
  zIndex : ℕ
  visible : Bool := true
  children : List String := []
deriving Repr, DecidableEq

/-- A `VideoTextureSource` (`types.ts`).  The texture dimensions the
source's video element reports are carried explicitly. -/
structure VideoTextureSource where
  id : String
  type : String
  texWidth : ℚ
  texHeight : ℚ
deriving Repr, DecidableEq

/-- A `VideoTexture` entry of `state.videoTextures` (`types.ts`).
`spriteParent` models `sprite.parent`: the id of the zone container that
currently holds the sprite (a Pixi node has at most one parent).
`scale`, `spriteX`, `spriteY` are the sprite transform written by
`fitVideoToZone`. -/
structure VideoTexture where
  id : String
  texWidth : ℚ
  texHeight : ℚ
  spriteParent : Option String := none
  scale : ℚ := 1
  spriteX : ℚ := 0
  spriteY : ℚ := 0
  isActive : Bool := true
deriving Repr, DecidableEq

/-- A `LayoutZone` entry of `state.layoutZones` (`types.ts`).
`videoTexture` holds the id of the bound `VideoTexture`, if any. -/
structure LayoutZone where
  id : String
  x : ℚ
  y : ℚ
  width : ℚ
  height : ℚ
  videoTexture : Option String := none
  zIndex : ℕ
deriving Repr, DecidableEq

/-- A `TexturePool` entry (`types.ts`): retired GPU texture keyed by a pool
key, with its in-use flag and last-used timestamp. -/
structure PoolEntry where
  isInUse : Bool
  lastUsed : ℤ
deriving Repr, DecidableEq

/-- The observable `CanvasManager` state: `state` plus the event log of
everything `emit` delivered.  `hasApp` models `state.app !== null`. -/
structure CMState where
  isInitialized : Bool
  hasApp : Bool
  width : ℚ
  height : ℚ
  layers : List (String × Layer)
  videoTextures : List (String × VideoTexture)
  layoutZones : List (String × LayoutZone)
  texturePool : List (String × PoolEntry)
  currentLayout : Option LayoutPreset
  events : List CanvasEvent
deriving Repr, DecidableEq

/-- The state right after a successful `initialize`: the app exists, the
four default layers of `createDefaultLayers` are registered with their
z-indices, and every registry is empty. -/
def initState (w h : ℚ) : CMState :=
  { isInitialized := true
    hasApp := true
    width := w
    height := h
    layers := [
      ("background", { name := "background", zIndex := 0 }),
      ("video", { name := "video", zIndex := 10 }),
      ("overlays", { name := "overlays", zIndex := 20 }),
      ("ui", { name := "ui", zIndex := 30 })]
    videoTextures := []
    layoutZones := []
    texturePool := []
    currentLayout := none
    events := [] }

/-- `getCurrentLayout` from `CanvasManager.ts`. -/
def getCurrentLayout (st : CMState) : Option LayoutPreset :=
  st.currentLayout

/-- `createVideoTexture` from `CanvasManager.ts`.  The asynchronous wait
for `loadedmetadata` is abstracted by `ready`: `true` when the element
reported ready metadata within the 5-second timeout without an element
error, `false` on timeout or element error.  The result is the state after
the call together with the settled promise: `.ok` the created resource, or
`.error` the thrown/rejected message.  The `Canvas not initialized` throw
happens before the `try` block, so it emits nothing. -/
def createVideoTexture (st : CMState) (source : VideoTextureSource)
    (ready : Bool) : CMState × Except String VideoTexture :=
  if !st.hasApp then
    (st, .error "Canvas not initialized")
  else if !ready then
    ({ st with events := st.events ++
        [{ type := "error", errorCode := some "VIDEO_TEXTURE_CREATION_FAILED" }] },
     .error "Video load timeout")
  else
    let vt : VideoTexture :=
      { id := source.id, texWidth := source.texWidth,
        texHeight := source.texHeight }
    ({ st with
        videoTextures := setA st.videoTextures source.id vt
        events := st.events ++ [{ type := "texture-created" }] },
     .ok vt)

/-- `fitVideoToZone` from `CanvasManager.ts`: uniform scale chosen by
aspect comparison, then centering via `(zoneDimension - spriteDimension)/2`
(a Pixi sprite's width is `texture.width * scale`). -/
def fitVideoToZone (vt : VideoTexture) (zone : LayoutZone) : VideoTexture :=
  let textureAspect := vt.texWidth / vt.texHeight
  let zoneAspect := zone.width / zone.height
  let scale :=
    if textureAspect > zoneAspect then zone.width / vt.texWidth
    else zone.height / vt.texHeight
  { vt with
    scale := scale
    spriteX := (zone.width - vt.texWidth * scale) / 2
    spriteY := (zone.height - vt.texHeight * scale) / 2 }

/-- `addVideoToZone` from `CanvasManager.ts`.  Both lookups happen before
any mutation and the function throws when either fails; on success the
sprite is removed from its previous parent container, added to the target
zone's container, the zone's `videoTexture` is set, the sprite is fitted,
and `layout-changed` is emitted.  Note the previous zone's `videoTexture`
field is never touched. -/
def addVideoToZone (st : CMState) (videoId zoneId : String) :
    Except String CMState :=
  match lookupA st.videoTextures videoId, lookupA st.layoutZones zoneId with
  | some vt, some zone =>
    let vt1 := { vt with spriteParent := some zoneId }
    let zone1 := { zone with videoTexture := some videoId }
    let vt2 := fitVideoToZone vt1 zone1
    .ok { st with
      videoTextures := setA st.videoTextures videoId vt2
      layoutZones := setA st.layoutZones zoneId zone1
      events := st.events ++ [{ type := "layout-changed" }] }
  | _, _ =>
    .error ("Video " ++ videoId ++ " or zone " ++ zoneId ++ " not found")

/-- `createLayoutZone` from `CanvasManager.ts`.  The layer lookup happens
before any mutation and the function throws when it fails; on success the
zone container is attached under the layer, the zone is registered and
returned. -/
def createLayoutZone (st : CMState) (id : String) (x y width height : ℚ)
    (layerName : String := "video") : Except String (CMState × LayoutZone) :=
  match lookupA st.layers layerName with
  | none => .error ("Layer " ++ layerName ++ " not found")
  | some layer =>
    let zone : LayoutZone :=
      { id := id, x := x, y := y, width := width, height := height,
        zIndex := layer.zIndex }
    let layer1 := { layer with children := layer.children ++ [id] }
    .ok ({ st with
            layers := setA st.layers layerName layer1
            layoutZones := setA st.layoutZones id zone },
         zone)

/-- `removeLayoutZone` from `CanvasManager.ts`: no-op when the id is
unknown; otherwise removes the bound sprite from the zone's container when
it actually is a child (Pixi `removeChild` ignores non-children), detaches
the zone container from its parent layer, and deletes the registry
entry. -/
def removeLayoutZone (st : CMState) (id : String) : CMState :=
  match lookupA st.layoutZones id with
  | none => st
  | some zone =>
    let vts :=
      match zone.videoTexture with
      | some vid =>
        match lookupA st.videoTextures vid with
        | some vt =>
          if vt.spriteParent == some id then
            setA st.videoTextures vid { vt with spriteParent := none }
          else st.videoTextures
        | none => st.videoTextures
      | none => st.videoTextures
    let layers := st.layers.map fun p =>
      (p.1, { p.2 with children := p.2.children.filter (fun c => c != id) })
    { st with
      videoTextures := vts
      layers := layers
      layoutZones := eraseA st.layoutZones id }

/-- The zone-clearing loop of `applyLayout`
(`for (const [zoneId] of this.state.layoutZones) removeLayoutZone(zoneId)`):
removals of visited keys do not disturb iteration of the remaining ones, so
the loop is a fold of `removeLayoutZone` over the initial key list. -/
def removeAllZones : CMState → List String → CMState
  | st, [] => st
  | st, id :: rest => removeAllZones (removeLayoutZone st id) rest

/-- The zone-creating loop of `applyLayout`
(`zones.forEach(zoneData => this.createLayoutZone(...))`): creates one
zone per entry; a throw from `createLayoutZone` propagates and stops the
loop. -/
def createAllZones (st : CMState) :
    List LayoutZoneDefinition → Except String CMState
  | [] => .ok st
  | z :: rest =>
    match createLayoutZone st z.id z.x z.y z.width z.height with
    | .error e => .error e
    | .ok (st1, _) => createAllZones st1 rest

/-- `applyLayout` from `CanvasManager.ts`: look the preset up in
`LAYOUT_PRESETS`, throw when absent; otherwise remove every existing zone,
scale the preset's fractional rectangles by the current canvas size, create
one zone per entry (on the `video` layer), record the preset as current and
emit `layout-changed`. -/
def applyLayout (st : CMState) (layoutId : String) : Except String CMState :=
  match LAYOUT_PRESETS.find? (fun l => l.id == layoutId) with
  | none => .error ("Layout " ++ layoutId ++ " not found")
  | some layout =>
    let st1 := removeAllZones st (st.layoutZones.map Prod.fst)
    let zones := calculateZonePositions layout.zones st.width st.height
    match createAllZones st1 zones with
    | .error e => .error e
    | .ok st2 =>
      .ok { st2 with
            currentLayout := some layout
            events := st2.events ++ [{ type := "layout-changed" }] }

/-- `destroy` from `CanvasManager.ts`: no-op when not initialized;
otherwise stop the timers, destroy every video texture and pooled texture,
tear the overlay manager and app down, clear every registry, reset the
flags, and emit `destroyed`. -/
def destroy (st : CMState) : CMState :=
  if !st.isInitialized then st
  else
    { st with
      isInitialized := false
      hasApp := false
      layers := []
      videoTextures := []
      layoutZones := []
      texturePool := []
      events := st.events ++ [{ type := "destroyed" }] }

/-! ## OverlayManager (`overlays.ts`) -/

/-- `TextOverlayConfig` from `overlays.ts` (the style map is not needed by
any claim and is omitted). -/
structure TextOverlayConfig where
  id : String
  x : ℚ
  y : ℚ
  content : String
  zIndex : Option ℚ := none
  visible : Option Bool := none
deriving Repr, DecidableEq

/-- `ImageOverlayConfig` from `overlays.ts`. -/
structure ImageOverlayConfig where
  id : String
  x : ℚ
  y : ℚ
  source : String
  opacity : Option ℚ := none
  imgScale : Option ℚ := none
  width : Option ℚ := none
  height : Option ℚ := none
  zIndex : Option ℚ := none
  visible : Option Bool := none
deriving Repr, DecidableEq

/-- `LowerThirdConfig` from `overlays.ts`. -/
structure LowerThirdConfig where
  id : String
  x : ℚ
  y : ℚ
  width : ℚ
  height : ℚ
  title : String
  subtitle : Option String := none
  backgroundColor : Option ℕ := none
  textColor : Option ℕ := none
  zIndex : Option ℚ := none
  visible : Option Bool := none
deriving Repr, DecidableEq

/-- JavaScript truthiness of an optional string (`config.subtitle ? _ : _`):
`undefined` and the empty string are falsy. -/
def truthyStr : Option String → Bool
  | none => false
  | some s => !s.isEmpty

/-- The geometry of the children built by `createLowerThird`
(`overlays.ts` lines 144-180): the background `Graphics` rectangle, the
title `Text` position, and the subtitle `Text` position when one is
rendered.  `titleHeight` is the rendered height of the title text, an input
of the font engine the code reads back from the `Text` node. -/
structure LowerThirdPieces where
  bgX : ℚ
  bgY : ℚ
  bgWidth : ℚ
  bgHeight : ℚ
  bgColor : ℕ
  bgAlpha : ℚ
  titleX : ℚ
  titleY : ℚ
  subtitlePos : Option (ℚ × ℚ)
deriving Repr, DecidableEq

/-- The child geometry computed by `createLowerThird` from `overlays.ts`:
background `rect(0, 0, width, height)` with `alpha = 0.8`, title at
`x = 20` and `y = subtitle ? 10 : (height - titleText.height) / 2`, and a
subtitle at `x = 20`, `y = titleText.y + titleText.height + 5` when the
config's subtitle is truthy. -/
def createLowerThirdPieces (cfg : LowerThirdConfig) (titleHeight : ℚ) :
    LowerThirdPieces :=
  let titleY :=
    if truthyStr cfg.subtitle then 10 else (cfg.height - titleHeight) / 2
  { bgX := 0
    bgY := 0
    bgWidth := cfg.width
    bgHeight := cfg.height
    bgColor := cfg.backgroundColor.getD 0
    bgAlpha := 0.8
    titleX := 20
    titleY := titleY
    subtitlePos :=
      if truthyStr cfg.subtitle then some (20, titleY + titleHeight + 5)
      else none }

/-- An overlay `Container` built by one of the three `create*` functions of
`OverlayManager`: its kind, transform, z-index, visibility, and (for
lower-thirds) the geometry of its children. -/
structure OverlayNode where
  id : String
  kind : String
  x : ℚ
  y : ℚ
  zIndex : ℚ
  visible : Bool
  lowerThird : Option LowerThirdPieces := none
deriving Repr, DecidableEq

/-- The observable `OverlayManager` state: the child list of its container
(in `addChild` order, duplicates possible) and the `overlays` map keyed by
identifier. -/
structure OverlayState where
  containerChildren : List OverlayNode := []
  overlays : List (String × OverlayNode) := []
deriving Repr, DecidableEq

/-- `createTextOverlay` from `overlays.ts`: build the node with defaults
`zIndex = 100`, `visible = true`, `addChild` it to the container and
`set` it in the `overlays` map. -/
def createTextOverlay (om : OverlayState) (cfg : TextOverlayConfig) :
    OverlayState × OverlayNode :=
  let node : OverlayNode :=
    { id := cfg.id, kind := "text", x := cfg.x, y := cfg.y,
      zIndex := cfg.zIndex.getD 100, visible := cfg.visible.getD true }
  ({ containerChildren := om.containerChildren ++ [node]
     overlays := setA om.overlays cfg.id node },
   node)

/-- `createImageOverlay` from `overlays.ts` (the success path, after the
awaited texture resolves): defaults `zIndex = 50`, `visible = true`. -/
def createImageOverlay (om : OverlayState) (cfg : ImageOverlayConfig) :
    OverlayState × OverlayNode :=
  let node : OverlayNode :=
    { id := cfg.id, kind := "image", x := cfg.x, y := cfg.y,
      zIndex := cfg.zIndex.getD 50, visible := cfg.visible.getD true }
  ({ containerChildren := om.containerChildren ++ [node]
     overlays := setA om.overlays cfg.id node },
   node)

/-- `createLowerThird` from `overlays.ts`: builds the background/title/
subtitle children (see `createLowerThirdPieces`), applies defaults
`zIndex = 75`, `visible = true`, attaches the node and registers it. -/
def createLowerThird (om : OverlayState) (cfg : LowerThirdConfig)
    (titleHeight : ℚ) : OverlayState × OverlayNode :=
  let node : OverlayNode :=
    { id := cfg.id, kind := "lower-third", x := cfg.x, y := cfg.y,
      zIndex := cfg.zIndex.getD 75, visible := cfg.visible.getD true,
      lowerThird := some (createLowerThirdPieces cfg titleHeight) }
  ({ containerChildren := om.containerChildren ++ [node]
     overlays := setA om.overlays cfg.id node },
   node)

/-! ## Concrete states and scenarios used by the witnesses -/

/-- The state built by the `CanvasManager` constructor before `initialize`
is called: no app, not initialized, every registry empty (default
1920x1080 configuration). -/
def newState : CMState :=
  { isInitialized := false
    hasApp := false
    width := 1920
    height := 1080
    layers := []
    videoTextures := []
    layoutZones := []
    texturePool := []
    currentLayout := none
    events := [] }

/-- Scenario: from a fresh initialized manager, create zones `zoneA` and
`zoneB`, create video resource `v`, bind it to `zoneA`, then rebind it to
`zoneB`. -/
def rebindScenario : Except String CMState :=
  match createLayoutZone (initState 1920 1080) "zoneA" 0 0 160 90 with
  | .error e => .error e
  | .ok (s1, _) =>
    match createLayoutZone s1 "zoneB" 200 0 160 90 with
    | .error e => .error e
    | .ok (s2, _) =>
      let p := createVideoTexture s2
        { id := "v", type := "camera", texWidth := 16, texHeight := 9 } true
      match p.2 with
      | .error e => .error e
      | .ok _ =>
        match addVideoToZone p.1 "v" "zoneA" with
        | .error e => .error e
        | .ok s4 => addVideoToZone s4 "v" "zoneB"

/-- The state right before the rebind of `rebindScenario`: resource `v`
bound to `zoneA` (its sprite inside `zoneA`), `zoneB` empty. -/
def preRebindState : CMState :=
  { initState 1920 1080 with
    videoTextures :=
      [("v", { id := "v", texWidth := 16, texHeight := 9,
               spriteParent := some "zoneA", scale := 10, spriteX := 0,
               spriteY := 0 })]
    layoutZones :=
      [("zoneA", { id := "zoneA", x := 0, y := 0, width := 160, height := 90,
                   videoTexture := some "v", zIndex := 10 }),
       ("zoneB", { id := "zoneB", x := 200, y := 0, width := 160,
                   height := 90, zIndex := 10 })] }

/-- A concrete title-only lower-third configuration (witnesses). -/
def ltCfg : LowerThirdConfig :=
  { id := "lt", x := 50, y := 900, width := 400, height := 80,
    title := "Jane" }

/-- The same configuration with a subtitle (witnesses). -/
def ltCfgSub : LowerThirdConfig :=
  { ltCfg with id := "lt2", subtitle := some "Host" }

/-- A concrete text-overlay configuration with no explicit z-index or
visibility (witnesses). -/
def tCfg : TextOverlayConfig :=
  { id := "t1", x := 5, y := 6, content := "hi" }

/-- A concrete image-overlay configuration with no explicit z-index or
visibility (witnesses). -/
def iCfg : ImageOverlayConfig :=
  { id := "i1", x := 0, y := 0, source := "/logo.png" }

/-- An `OverlayManager` fresh from its constructor: empty container,
empty registry. -/
def emptyOverlays : OverlayState := { }

/-! ## Helper lemmas -/

theorem lookupA_setA_self {α : Type} (m : List (String × α)) (k : String)
    (v : α) : lookupA (setA m k v) k = some v := by
  induction m with
  | nil => simp [setA, lookupA]
  | cons hd tl ih =>
    by_cases h : hd.1 == k
    · simp [setA, lookupA, h]
    · simp [setA, lookupA, h, ih]

theorem lookupA_setA_ne {α : Type} (m : List (String × α)) (k k2 : String)
    (v : α) (h : k ≠ k2) : lookupA (setA m k v) k2 = lookupA m k2 := by
  induction m with
  | nil =>
    simp [setA, lookupA]
    intro hkk
    exact absurd hkk h
  | cons hd tl ih =>
    by_cases hh : hd.1 == k
    · have hk : hd.1 = k := by simpa using hh
      have hne : ¬ (k == k2) := by simpa using h
      simp [setA, lookupA, hh, hk, hne]
    · simp [setA, lookupA, hh, ih]

/-! ## Claim theorems -/

/-- C6 counterexample: on a 1920x1080 canvas every `four-grid` zone is
`0.475 * 1080 = 513` pixels tall, not approximately 489 pixels: 513 is not
within a one-pixel rounding tolerance of 489 (it is 24 pixels away). -/
theorem fourGrid_height_is_not_489 :
    ((calculateZonePositions FOUR_GRID_LAYOUT.zones 1920 1080).map
        (fun z => z.height)) = [513, 513, 513, 513]
    ∧ ¬ |(513 : ℚ) - 489| ≤ 1 := by
  constructor
  · norm_num [calculateZonePositions, FOUR_GRID_LAYOUT]
  · norm_num [abs]

/-- C6 (amended): applying the `four-grid` preset on a 1920x1080 canvas
creates exactly 4 zones, each exactly 912x513 pixels (0.475x1920 wide,
0.475x1080 tall), positioned at the preset's four fractional offsets
(0.025, 0.025), (0.5, 0.025), (0.025, 0.5), (0.5, 0.5) scaled to pixels:
(48, 27), (960, 27), (48, 540), (960, 540). -/
theorem fourGrid_1920_1080_zones :
    (applyLayout (initState 1920 1080) "four-grid").map
        (fun s => s.layoutZones)
      = .ok [
        ("top-left", { id := "top-left", x := 48, y := 27, width := 912,
                       height := 513, zIndex := 10 }),
        ("top-right", { id := "top-right", x := 960, y := 27, width := 912,
                        height := 513, zIndex := 10 }),
        ("bottom-left", { id := "bottom-left", x := 48, y := 540,
                          width := 912, height := 513, zIndex := 10 }),
        ("bottom-right", { id := "bottom-right", x := 960, y := 540,
                           width := 912, height := 513, zIndex := 10 })] := by
  simp [applyLayout, LAYOUT_PRESETS, SINGLE_SPEAKER_LAYOUT,
    PICTURE_IN_PICTURE_LAYOUT, SIDE_BY_SIDE_LAYOUT, FOUR_GRID_LAYOUT,
    SPOTLIGHT_GALLERY_LAYOUT, initState, removeAllZones, createAllZones,
    createLayoutZone, calculateZonePositions, lookupA, setA, Except.map,
    List.find?]
  norm_num

/-- C1: for every `LayoutPreset` in the catalog, `applyLayout` with that
preset's id succeeds, `getCurrentLayout` then returns that preset, exactly
`preset.zones.length` zones are created, and each created zone's pixel
rectangle is the preset's fractional rectangle multiplied componentwise by
the current canvas width and height; `applyLayout` with an id not in the
catalog fails. -/
theorem applyLayout_catalog (preset : LayoutPreset) (w h : ℚ)
    (hmem : preset ∈ LAYOUT_PRESETS) :
    ((applyLayout (initState w h) preset.id).map
        (fun s => (getCurrentLayout s, s.layoutZones)))
      = .ok (some preset,
          preset.zones.map fun z =>
            (z.id, { id := z.id, x := z.x * w, y := z.y * h,
                     width := z.width * w, height := z.height * h,
                     videoTexture := none, zIndex := 10 }))
    ∧ ((applyLayout (initState w h) preset.id).map
        (fun s => s.layoutZones.length)) = .ok preset.zones.length
    ∧ (∀ lid : String, (∀ l ∈ LAYOUT_PRESETS, l.id ≠ lid) →
        applyLayout (initState w h) lid
          = .error ("Layout " ++ lid ++ " not found")) := by
  refine ⟨?_, ?_, ?_⟩
  · simp only [LAYOUT_PRESETS, List.mem_cons, List.not_mem_nil,
      or_false] at hmem
    rcases hmem with rfl | rfl | rfl | rfl | rfl <;>
      simp [applyLayout, LAYOUT_PRESETS, SINGLE_SPEAKER_LAYOUT,
        PICTURE_IN_PICTURE_LAYOUT, SIDE_BY_SIDE_LAYOUT, FOUR_GRID_LAYOUT,
        SPOTLIGHT_GALLERY_LAYOUT, initState, removeAllZones, createAllZones,
        createLayoutZone, calculateZonePositions, lookupA, setA, Except.map,
        List.find?, getCurrentLayout]
  · simp only [LAYOUT_PRESETS, List.mem_cons, List.not_mem_nil,
      or_false] at hmem
    rcases hmem with rfl | rfl | rfl | rfl | rfl <;>
      simp [applyLayout, LAYOUT_PRESETS, SINGLE_SPEAKER_LAYOUT,
        PICTURE_IN_PICTURE_LAYOUT, SIDE_BY_SIDE_LAYOUT, FOUR_GRID_LAYOUT,
        SPOTLIGHT_GALLERY_LAYOUT, initState, removeAllZones, createAllZones,
        createLayoutZone, calculateZonePositions, lookupA, setA, Except.map,
        List.find?]
  · intro lid hl
    have hfind : LAYOUT_PRESETS.find? (fun l => l.id == lid) = none := by
      rw [List.find?_eq_none]
      intro l hml
      simpa using hl l hml
    simp [applyLayout, hfind]

/-- C1 witness: the catalog membership hypothesis discharged at the
`four-grid` preset on a 1366x768 canvas. -/
theorem applyLayout_catalog_witness :
    ((applyLayout (initState 1366 768) FOUR_GRID_LAYOUT.id).map
        (fun s => (getCurrentLayout s, s.layoutZones)))
      = .ok (some FOUR_GRID_LAYOUT,
          FOUR_GRID_LAYOUT.zones.map fun z =>
            (z.id, { id := z.id, x := z.x * 1366, y := z.y * 768,
                     width := z.width * 1366, height := z.height * 768,
                     videoTexture := none, zIndex := 10 }))
    ∧ ((applyLayout (initState 1366 768) FOUR_GRID_LAYOUT.id).map
        (fun s => s.layoutZones.length)) = .ok FOUR_GRID_LAYOUT.zones.length
    ∧ (∀ lid : String, (∀ l ∈ LAYOUT_PRESETS, l.id ≠ lid) →
        applyLayout (initState 1366 768) lid
          = .error ("Layout " ++ lid ++ " not found")) :=
  applyLayout_catalog FOUR_GRID_LAYOUT 1366 768 (by
    simp [LAYOUT_PRESETS])

/-- C3: for every texture and zone with positive dimensions,
`fitVideoToZone` chooses `scale = zoneWidth / textureWidth` exactly when
the texture aspect exceeds the zone aspect and `scale = zoneHeight /
textureHeight` otherwise, applies it uniformly to both axes (so the scaled
sprite's aspect ratio equals the texture's), the scaled sprite fits inside
the zone bounds, and each axis offset is
`(zoneDimension - scaledDimension) / 2`. -/
theorem fitVideoToZone_spec (vt : VideoTexture) (zone : LayoutZone)
    (htw : 0 < vt.texWidth) (hth : 0 < vt.texHeight)
    (hzw : 0 < zone.width) (hzh : 0 < zone.height) :
    (fitVideoToZone vt zone).scale
        = (if vt.texWidth / vt.texHeight > zone.width / zone.height
           then zone.width / vt.texWidth else zone.height / vt.texHeight)
    ∧ (vt.texWidth * (fitVideoToZone vt zone).scale)
        / (vt.texHeight * (fitVideoToZone vt zone).scale)
        = vt.texWidth / vt.texHeight
    ∧ vt.texWidth * (fitVideoToZone vt zone).scale ≤ zone.width
    ∧ vt.texHeight * (fitVideoToZone vt zone).scale ≤ zone.height
    ∧ (fitVideoToZone vt zone).spriteX
        = (zone.width - vt.texWidth * (fitVideoToZone vt zone).scale) / 2
    ∧ (fitVideoToZone vt zone).spriteY
        = (zone.height - vt.texHeight * (fitVideoToZone vt zone).scale) / 2
    ∧ 0 ≤ (fitVideoToZone vt zone).spriteX
    ∧ (fitVideoToZone vt zone).spriteX
        + vt.texWidth * (fitVideoToZone vt zone).scale ≤ zone.width
    ∧ 0 ≤ (fitVideoToZone vt zone).spriteY
    ∧ (fitVideoToZone vt zone).spriteY
        + vt.texHeight * (fitVideoToZone vt zone).scale ≤ zone.height := by
  have htw0 : vt.texWidth ≠ 0 := ne_of_gt htw
  have hth0 : vt.texHeight ≠ 0 := ne_of_gt hth
  have hfitw : vt.texWidth * (fitVideoToZone vt zone).scale ≤ zone.width := by
    simp only [fitVideoToZone]
    split
    · rw [mul_div_cancel₀ _ htw0]
    · rename_i hcase
      push_neg at hcase
      have hineq : vt.texWidth * zone.height ≤ zone.width * vt.texHeight :=
        (div_le_div_iff₀ hth hzh).mp hcase
      rw [← mul_div_assoc, div_le_iff₀ hth]
      nlinarith
  have hfith : vt.texHeight * (fitVideoToZone vt zone).scale
      ≤ zone.height := by
    simp only [fitVideoToZone]
    split
    · rename_i hcase
      have hineq : zone.width * vt.texHeight < vt.texWidth * zone.height :=
        (div_lt_div_iff₀ hzh hth).mp hcase
      rw [← mul_div_assoc, div_le_iff₀ htw]
      nlinarith
    · rw [mul_div_cancel₀ _ hth0]
  have hscalepos : 0 < (fitVideoToZone vt zone).scale := by
    simp only [fitVideoToZone]
    split
    · exact div_pos hzw htw
    · exact div_pos hzh hth
  refine ⟨rfl, ?_, hfitw, hfith, rfl, rfl, ?_, ?_, ?_, ?_⟩
  · rw [mul_div_mul_comm, div_self (ne_of_gt hscalepos), mul_one]
  · simp only [fitVideoToZone] at hfitw ⊢
    linarith
  · simp only [fitVideoToZone] at hfitw ⊢
    linarith
  · simp only [fitVideoToZone] at hfith ⊢
    linarith
  · simp only [fitVideoToZone] at hfith ⊢
    linarith

/-- C3 witness: a 16x9 texture fitted into a 100x100 zone (texture
relatively wider: scale 100/16, offsets 0 and 171.875/2). -/
theorem fitVideoToZone_spec_witness :
    (fitVideoToZone
        { id := "v", texWidth := 16, texHeight := 9 }
        { id := "z", x := 0, y := 0, width := 100, height := 100,
          zIndex := 10 }).scale
      = (if (16 : ℚ) / 9 > (100 : ℚ) / 100 then (100 : ℚ) / 16
         else (100 : ℚ) / 9)
    ∧ ((16 : ℚ) * (fitVideoToZone
        { id := "v", texWidth := 16, texHeight := 9 }
        { id := "z", x := 0, y := 0, width := 100, height := 100,
          zIndex := 10 }).scale)
        / ((9 : ℚ) * (fitVideoToZone
        { id := "v", texWidth := 16, texHeight := 9 }
        { id := "z", x := 0, y := 0, width := 100, height := 100,
          zIndex := 10 }).scale)
        = (16 : ℚ) / 9 := by
  have hmain := fitVideoToZone_spec
    { id := "v", texWidth := 16, texHeight := 9 }
    { id := "z", x := 0, y := 0, width := 100, height := 100, zIndex := 10 }
    (by norm_num) (by norm_num) (by norm_num) (by norm_num)
  exact ⟨hmain.1, hmain.2.1⟩

/-- C2 counterexample: in the reachable state of `rebindScenario` (bind
resource `v` to `zoneA`, then rebind it to `zoneB`), zone B's
`videoTexture` is set to `v` but zone A's `videoTexture` still references
`v` as well — `addVideoToZone` never clears the previous zone's field, so
two zones are simultaneously bound to the same resource via
`videoTexture`. -/
theorem rebind_leaves_stale_binding :
    (rebindScenario.map fun s =>
        ((lookupA s.layoutZones "zoneA").map LayoutZone.videoTexture,
         (lookupA s.layoutZones "zoneB").map LayoutZone.videoTexture))
      = .ok (some (some "v"), some (some "v")) := by
  simp [rebindScenario, initState, createLayoutZone, createVideoTexture,
    addVideoToZone, fitVideoToZone, lookupA, setA, Except.map]

/-- C2 (amended): rebinding a bound video resource to zone B moves its
sprite into zone B's container (a sprite has a single parent, so it leaves
zone A's container), sets zone B's `videoTexture` to the resource, and does
not destroy or deregister the resource.  However zone A's `videoTexture`
field is NOT cleared: the entry of every other zone, zone A included, is
left untouched, so zone A retains a stale reference to the resource. -/
theorem addVideoToZone_rebind (st : CMState) (v zidA zidB : String)
    (vt : VideoTexture) (zB : LayoutZone)
    (hv : lookupA st.videoTextures v = some vt)
    (hzB : lookupA st.layoutZones zidB = some zB)
    (hAB : zidA ≠ zidB) :
    ∃ st2, addVideoToZone st v zidB = .ok st2
      ∧ (lookupA st2.layoutZones zidB).map LayoutZone.videoTexture
          = some (some v)
      ∧ (lookupA st2.videoTextures v).map VideoTexture.spriteParent
          = some (some zidB)
      ∧ lookupA st2.videoTextures v
          = some (fitVideoToZone { vt with spriteParent := some zidB }
              { zB with videoTexture := some v })
      ∧ lookupA st2.layoutZones zidA = lookupA st.layoutZones zidA := by
  refine ⟨{ st with
      videoTextures := setA st.videoTextures v
        (fitVideoToZone { vt with spriteParent := some zidB }
          { zB with videoTexture := some v })
      layoutZones := setA st.layoutZones zidB
        { zB with videoTexture := some v }
      events := st.events ++ [{ type := "layout-changed" }] },
    ?_, ?_, ?_, ?_, ?_⟩
  · simp [addVideoToZone, hv, hzB]
  · simp [lookupA_setA_self]
  · simp [lookupA_setA_self, fitVideoToZone]
  · simp [lookupA_setA_self]
  · exact lookupA_setA_ne _ _ _ _ (fun hx => hAB hx.symm)

/-- C2 amended-claim witness: the rebind applied at `preRebindState`, where
`v` is bound to `zoneA` and `zoneB` is free. -/
theorem addVideoToZone_rebind_witness :
    ∃ st2, addVideoToZone preRebindState "v" "zoneB" = .ok st2
      ∧ (lookupA st2.layoutZones "zoneB").map LayoutZone.videoTexture
          = some (some "v")
      ∧ (lookupA st2.videoTextures "v").map VideoTexture.spriteParent
          = some (some "zoneB")
      ∧ lookupA st2.videoTextures "v"
          = some (fitVideoToZone
              { ({ id := "v", texWidth := 16, texHeight := 9,
                   spriteParent := some "zoneA", scale := 10, spriteX := 0,
                   spriteY := 0 } : VideoTexture) with
                 spriteParent := some "zoneB" }
              { ({ id := "zoneB", x := 200, y := 0, width := 160,
                   height := 90, zIndex := 10 } : LayoutZone) with
                 videoTexture := some "v" })
      ∧ lookupA st2.layoutZones "zoneA"
          = lookupA preRebindState.layoutZones "zoneA" :=
  addVideoToZone_rebind preRebindState "v" "zoneA" "zoneB"
    { id := "v", texWidth := 16, texHeight := 9,
      spriteParent := some "zoneA", scale := 10, spriteX := 0, spriteY := 0 }
    { id := "zoneB", x := 200, y := 0, width := 160, height := 90,
      zIndex := 10 }
    (by simp [preRebindState, initState, lookupA])
    (by simp [preRebindState, initState, lookupA])
    (by simp)

/-- C4: when the source never reports ready metadata within the 5-second
timeout (or its element errors), `createVideoTexture` on an initialized
manager rejects, appends exactly one `error` event carrying the
`VIDEO_TEXTURE_CREATION_FAILED` code — both channels fire — and adds no
entry to the video-texture registry. -/
theorem createVideoTexture_timeout (st : CMState)
    (source : VideoTextureSource) (h : st.hasApp = true) :
    (createVideoTexture st source false).2 = .error "Video load timeout"
    ∧ (createVideoTexture st source false).1.events
        = st.events
            ++ [⟨"error", some "VIDEO_TEXTURE_CREATION_FAILED"⟩]
    ∧ ((createVideoTexture st source false).1.events.filter
          (fun e => e.type == "error")).length
        = (st.events.filter (fun e => e.type == "error")).length + 1
    ∧ (createVideoTexture st source false).1.videoTextures
        = st.videoTextures := by
  simp [createVideoTexture, h]

/-- C4 witness: the timeout path on a fresh initialized manager. -/
theorem createVideoTexture_timeout_witness :
    (createVideoTexture (initState 1920 1080)
        { id := "cam", type := "camera", texWidth := 640,
          texHeight := 480 } false).2 = .error "Video load timeout"
    ∧ (createVideoTexture (initState 1920 1080)
        { id := "cam", type := "camera", texWidth := 640,
          texHeight := 480 } false).1.events
        = (initState 1920 1080).events
            ++ [⟨"error", some "VIDEO_TEXTURE_CREATION_FAILED"⟩]
    ∧ (((createVideoTexture (initState 1920 1080)
        { id := "cam", type := "camera", texWidth := 640,
          texHeight := 480 } false).1.events.filter
          (fun e => e.type == "error")).length
        = ((initState 1920 1080).events.filter
            (fun e => e.type == "error")).length + 1)
    ∧ (createVideoTexture (initState 1920 1080)
        { id := "cam", type := "camera", texWidth := 640,
          texHeight := 480 } false).1.videoTextures
        = (initState 1920 1080).videoTextures :=
  createVideoTexture_timeout (initState 1920 1080)
    { id := "cam", type := "camera", texWidth := 640, texHeight := 480 }
    (by simp [initState])

/-- C5: `destroy` on a non-initialized manager is a no-op; `destroy` twice
never raises and is idempotent on the observable state; after `destroy` of
an initialized manager every registry (layers, video textures, layout
zones, texture pool) is empty and the initialized flag is false. -/
theorem destroy_idempotent (st : CMState) :
    (st.isInitialized = false → destroy st = st)
    ∧ destroy (destroy st) = destroy st
    ∧ (st.isInitialized = true →
        (destroy st).isInitialized = false
        ∧ (destroy st).layers = []
        ∧ (destroy st).videoTextures = []
        ∧ (destroy st).layoutZones = []
        ∧ (destroy st).texturePool = []) := by
  by_cases h : st.isInitialized <;> simp [destroy, h]

/-- C5 witness: `destroy` evaluated at a fresh initialized manager and at
the constructor state. -/
theorem destroy_idempotent_witness :
    (((initState 1920 1080).isInitialized = false →
        destroy (initState 1920 1080) = initState 1920 1080)
      ∧ destroy (destroy (initState 1920 1080))
          = destroy (initState 1920 1080)
      ∧ ((initState 1920 1080).isInitialized = true →
          (destroy (initState 1920 1080)).isInitialized = false
          ∧ (destroy (initState 1920 1080)).layers = []
          ∧ (destroy (initState 1920 1080)).videoTextures = []
          ∧ (destroy (initState 1920 1080)).layoutZones = []
          ∧ (destroy (initState 1920 1080)).texturePool = []))
    ∧ destroy newState = newState :=
  ⟨destroy_idempotent (initState 1920 1080),
   (destroy_idempotent newState).1 (by simp [newState])⟩

/-- C10: `createVideoTexture` on a manager whose app does not exist (never
initialized, or destroyed) rejects immediately with `Canvas not
initialized`, leaves the whole state — in particular the event log (so no
`error` event) and the video-texture registry — unchanged. -/
theorem createVideoTexture_uninitialized (st : CMState)
    (source : VideoTextureSource) (ready : Bool) (h : st.hasApp = false) :
    createVideoTexture st source ready
      = (st, .error "Canvas not initialized") := by
  simp [createVideoTexture, h]

/-- C10 witness: the constructor state and a destroyed manager both take
the fail-fast path. -/
theorem createVideoTexture_uninitialized_witness :
    createVideoTexture newState
        { id := "cam", type := "camera", texWidth := 640,
          texHeight := 480 } true
      = (newState, .error "Canvas not initialized")
    ∧ createVideoTexture (destroy (initState 1920 1080))
        { id := "cam", type := "camera", texWidth := 640,
          texHeight := 480 } true
      = (destroy (initState 1920 1080),
         .error "Canvas not initialized") :=
  ⟨createVideoTexture_uninitialized newState _ true (by simp [newState]),
   createVideoTexture_uninitialized (destroy (initState 1920 1080)) _ true
     (by simp [destroy, initState])⟩

/-- C8: lookup failures fail fast, synchronously, and atomically — in the
source both throws happen before any mutation, which the embedding renders
as check-then-act.  `createLayoutZone` fails when the named layer does not
exist and otherwise creates the zone, attaches its container under the
layer, registers it, and returns it; `addVideoToZone` fails when either the
video resource or the zone is unknown. -/
theorem lookup_failures_fail_fast (st : CMState) (id : String)
    (x y w h : ℚ) (layerName videoId zoneId : String) :
    (lookupA st.layers layerName = none →
      createLayoutZone st id x y w h layerName
        = .error ("Layer " ++ layerName ++ " not found"))
    ∧ (∀ layer, lookupA st.layers layerName = some layer →
        ∃ st2,
          createLayoutZone st id x y w h layerName
            = .ok (st2,
                { id := id, x := x, y := y, width := w, height := h,
                  videoTexture := none, zIndex := layer.zIndex })
          ∧ lookupA st2.layoutZones id
              = some { id := id, x := x, y := y, width := w, height := h,
                       videoTexture := none, zIndex := layer.zIndex }
          ∧ lookupA st2.layers layerName
              = some { layer with children := layer.children ++ [id] })
    ∧ ((lookupA st.videoTextures videoId = none
        ∨ lookupA st.layoutZones zoneId = none) →
        addVideoToZone st videoId zoneId
          = .error ("Video " ++ videoId ++ " or zone " ++ zoneId
              ++ " not found")) := by
  refine ⟨?_, ?_, ?_⟩
  · intro hnone
    simp [createLayoutZone, hnone]
  · intro layer hsome
    refine ⟨{ st with
        layers := setA st.layers layerName
          { layer with children := layer.children ++ [id] }
        layoutZones := setA st.layoutZones id
          { id := id, x := x, y := y, width := w, height := h,
            videoTexture := none, zIndex := layer.zIndex } },
      ?_, ?_, ?_⟩
    · simp [createLayoutZone, hsome]
    · simp [lookupA_setA_self]
    · simp [lookupA_setA_self]
  · intro hfail
    rcases hfail with hfail | hfail
    · simp [addVideoToZone, hfail]
    · cases hvt : lookupA st.videoTextures videoId <;>
        simp [addVideoToZone, hvt, hfail]

/-- C8 witness: at a fresh initialized manager, creation against an
unknown layer fails, creation on the `video` layer succeeds and registers
the zone with the layer's z-index 10, and `addVideoToZone` with an unknown
video id fails — each hypothesis of the theorem discharged concretely. -/
theorem lookup_failures_fail_fast_witness :
    createLayoutZone (initState 1920 1080) "z1" 1 2 3 4 "nope"
      = .error ("Layer " ++ "nope" ++ " not found")
    ∧ (∃ st2,
        createLayoutZone (initState 1920 1080) "z1" 1 2 3 4 "video"
          = .ok (st2,
              { id := "z1", x := 1, y := 2, width := 3, height := 4,
                videoTexture := none, zIndex := 10 })
        ∧ lookupA st2.layoutZones "z1"
            = some { id := "z1", x := 1, y := 2, width := 3, height := 4,
                     videoTexture := none, zIndex := 10 }
        ∧ lookupA st2.layers "video"
            = some { name := "video", zIndex := 10, visible := true,
                     children := ["z1"] })
    ∧ addVideoToZone (initState 1920 1080) "ghost" "z9"
      = .error ("Video " ++ "ghost" ++ " or zone " ++ "z9"
          ++ " not found") :=
  ⟨(lookup_failures_fail_fast (initState 1920 1080) "z1" 1 2 3 4
      "nope" "ghost" "z9").1 (by simp [initState, lookupA]),
   (lookup_failures_fail_fast (initState 1920 1080) "z1" 1 2 3 4
      "video" "ghost" "z9").2.1
      { name := "video", zIndex := 10, visible := true, children := [] }
      (by simp [initState, lookupA]),
   (lookup_failures_fail_fast (initState 1920 1080) "z1" 1 2 3 4
      "video" "ghost" "z9").2.2
      (Or.inl (by simp [initState, lookupA]))⟩

/-- C7: `createLowerThird` builds a background rectangle of the configured
width and height with alpha 0.8, places the title at left margin 20 with
vertical position `(height - titleTextHeight) / 2` when no subtitle is
given and near the top (y = 10) otherwise, and places a given subtitle
directly beneath the title with a 5-unit gap; in particular, with only a
title on an 80-unit-tall region the title's y equals
`(80 - titleTextHeight) / 2`. -/
theorem createLowerThird_geometry (om : OverlayState)
    (cfg : LowerThirdConfig) (titleHeight : ℚ) :
    (createLowerThird om cfg titleHeight).2.lowerThird
        = some (createLowerThirdPieces cfg titleHeight)
    ∧ (createLowerThirdPieces cfg titleHeight).bgX = 0
    ∧ (createLowerThirdPieces cfg titleHeight).bgY = 0
    ∧ (createLowerThirdPieces cfg titleHeight).bgWidth = cfg.width
    ∧ (createLowerThirdPieces cfg titleHeight).bgHeight = cfg.height
    ∧ (createLowerThirdPieces cfg titleHeight).bgAlpha = 0.8
    ∧ (createLowerThirdPieces cfg titleHeight).titleX = 20
    ∧ (cfg.subtitle = none →
        (createLowerThirdPieces cfg titleHeight).titleY
          = (cfg.height - titleHeight) / 2)
    ∧ (truthyStr cfg.subtitle = true →
        (createLowerThirdPieces cfg titleHeight).titleY = 10
        ∧ (createLowerThirdPieces cfg titleHeight).subtitlePos
            = some (20,
                (createLowerThirdPieces cfg titleHeight).titleY
                  + titleHeight + 5))
    ∧ (cfg.height = 80 → cfg.subtitle = none →
        (createLowerThirdPieces cfg titleHeight).titleY
          = (80 - titleHeight) / 2) := by
  refine ⟨?_, ?_, ?_, ?_, ?_, ?_, ?_, ?_, ?_, ?_⟩
  · simp [createLowerThird]
  · simp [createLowerThirdPieces]
  · simp [createLowerThirdPieces]
  · simp [createLowerThirdPieces]
  · simp [createLowerThirdPieces]
  · simp [createLowerThirdPieces]
  · simp [createLowerThirdPieces]
  · intro hsub
    simp [createLowerThirdPieces, truthyStr, hsub]
  · intro hsub
    simp [createLowerThirdPieces, hsub]
  · intro hh hsub
    simp [createLowerThirdPieces, truthyStr, hsub, hh]

/-- C7 witness: a title-only lower third of height 80 with title text
height 24 puts the title at y = 28 = (80 - 24) / 2; the subtitle case is
exercised at `ltCfgSub` whose subtitle is truthy. -/
theorem createLowerThird_geometry_witness :
    (createLowerThird emptyOverlays ltCfg 24).2.lowerThird
        = some (createLowerThirdPieces ltCfg 24)
    ∧ (createLowerThirdPieces ltCfg 24).titleY = (80 - 24) / 2
    ∧ (createLowerThirdPieces ltCfgSub 24).titleY = 10
    ∧ (createLowerThirdPieces ltCfgSub 24).subtitlePos
        = some (20, 10 + 24 + 5) := by
  have h1 := createLowerThird_geometry emptyOverlays ltCfg 24
  have h2 := createLowerThird_geometry emptyOverlays ltCfgSub 24
  have h2s := h2.2.2.2.2.2.2.2.2.1 (by decide)
  refine ⟨h1.1, ?_, ?_, ?_⟩
  · have hy := h1.2.2.2.2.2.2.2.1 (by simp [ltCfg])
    have hh : ltCfg.height = 80 := by simp [ltCfg]
    rw [hy, hh]
  · exact h2s.1
  · rw [h2s.2, h2s.1]

/-- C9: each overlay-creation function applies the defaults (z-order:
text = 100, image = 50, lower-third = 75; visibility = true) and registers
the node under its identifier; re-creating with an existing identifier is
not rejected and produces a second node in the overlay container (the
first node stays attached) while the registry maps the identifier to the
newest node. -/
theorem overlay_defaults_and_duplicates (om : OverlayState)
    (tcfg : TextOverlayConfig) (icfg : ImageOverlayConfig)
    (lcfg : LowerThirdConfig) (titleHeight : ℚ)
    (htz : tcfg.zIndex = none) (htv : tcfg.visible = none)
    (hiz : icfg.zIndex = none) (hiv : icfg.visible = none)
    (hlz : lcfg.zIndex = none) (hlv : lcfg.visible = none) :
    (createTextOverlay om tcfg).2.zIndex = 100
    ∧ (createTextOverlay om tcfg).2.visible = true
    ∧ (createImageOverlay om icfg).2.zIndex = 50
    ∧ (createImageOverlay om icfg).2.visible = true
    ∧ (createLowerThird om lcfg titleHeight).2.zIndex = 75
    ∧ (createLowerThird om lcfg titleHeight).2.visible = true
    ∧ lookupA (createTextOverlay om tcfg).1.overlays tcfg.id
        = some (createTextOverlay om tcfg).2
    ∧ (createTextOverlay om tcfg).1.containerChildren
        = om.containerChildren ++ [(createTextOverlay om tcfg).2]
    ∧ (createTextOverlay (createTextOverlay om tcfg).1 tcfg).1.containerChildren
        = om.containerChildren
            ++ [(createTextOverlay om tcfg).2, (createTextOverlay om tcfg).2]
    ∧ lookupA
        (createTextOverlay (createTextOverlay om tcfg).1 tcfg).1.overlays
        tcfg.id
        = some (createTextOverlay (createTextOverlay om tcfg).1 tcfg).2 := by
  refine ⟨?_, ?_, ?_, ?_, ?_, ?_, ?_, ?_, ?_, ?_⟩
  · simp [createTextOverlay, htz]
  · simp [createTextOverlay, htv]
  · simp [createImageOverlay, hiz]
  · simp [createImageOverlay, hiv]
  · simp [createLowerThird, hlz]
  · simp [createLowerThird, hlv]
  · simp [createTextOverlay, lookupA_setA_self]
  · simp [createTextOverlay]
  · simp [createTextOverlay]
  · simp [createTextOverlay, lookupA_setA_self]

/-- C9 witness: the defaults and the duplicate-producing re-creation at
concrete configurations with no explicit z-index or visibility. -/
theorem overlay_defaults_and_duplicates_witness :
    (createTextOverlay emptyOverlays tCfg).2.zIndex = 100
    ∧ (createTextOverlay emptyOverlays tCfg).2.visible = true
    ∧ (createImageOverlay emptyOverlays iCfg).2.zIndex = 50
    ∧ (createImageOverlay emptyOverlays iCfg).2.visible = true
    ∧ (createLowerThird emptyOverlays ltCfg 24).2.zIndex = 75
    ∧ (createLowerThird emptyOverlays ltCfg 24).2.visible = true
    ∧ lookupA (createTextOverlay emptyOverlays tCfg).1.overlays tCfg.id
        = some (createTextOverlay emptyOverlays tCfg).2
    ∧ (createTextOverlay emptyOverlays tCfg).1.containerChildren
        = emptyOverlays.containerChildren
            ++ [(createTextOverlay emptyOverlays tCfg).2]
    ∧ (createTextOverlay
          (createTextOverlay emptyOverlays tCfg).1 tCfg).1.containerChildren
        = emptyOverlays.containerChildren
            ++ [(createTextOverlay emptyOverlays tCfg).2,
                (createTextOverlay emptyOverlays tCfg).2]
    ∧ lookupA (createTextOverlay
          (createTextOverlay emptyOverlays tCfg).1 tCfg).1.overlays tCfg.id
        = some (createTextOverlay
            (createTextOverlay emptyOverlays tCfg).1 tCfg).2 :=
  overlay_defaults_and_duplicates emptyOverlays tCfg iCfg ltCfg 24
    (by simp [tCfg]) (by simp [tCfg]) (by simp [iCfg]) (by simp [iCfg])
    (by simp [ltCfg]) (by simp [ltCfg])

end VueStream
